import Mathlib

/-!
Verification of the chart-recommendation pipeline in
`back_end/Chart-API-main/main.py`.

The Python functions are shallowly embedded as total Lean functions.
Python values that flow through the pipeline (cell values, sample values)
are modelled by the inductive `PyVal` (None, strings, integers); Python
floats produced by `float(...)` are modelled exactly as rationals `ℚ`
(every decimal literal the parser accepts is an exact rational; the claims
under study do not depend on binary rounding).  String primitives
(`strip`, `replace` of single characters, substring tests, `lower`) are
implemented over character lists so that all definitions reduce in the
kernel.  Rational arithmetic is expressed through `mkRat`-based helpers
`qadd`/`qdivNat`; the lemmas `qadd_eq_add` and `qdivNat_eq_div` prove they
agree with ordinary `+` and `/` on `ℚ`.
-/

/-! # Definitions (embedding of main.py) -/

/-- A Python runtime value as it appears in sample rows / sample lists:
`None`, a string, or an integer. -/
inductive PyVal where
  | vNone : PyVal
  | vStr : String → PyVal
  | vInt : Int → PyVal
deriving DecidableEq, Repr

/-- Python `str(v)` on the values we model. -/
def pyStr : PyVal → String
  | .vNone => "None"
  | .vStr s => s
  | .vInt n => toString n

/-- Python `s.strip()`: drop leading and trailing whitespace. -/
def pyStrip (s : String) : String :=
  String.mk (((s.toList.dropWhile Char.isWhitespace).reverse.dropWhile
    Char.isWhitespace).reverse)

/-- Python `s.replace(c, '')` for a single-character pattern `c`. -/
def removeChar (c : Char) (s : String) : String :=
  String.mk (s.toList.filter (· ≠ c))

/-- Python `s.lower()` (ASCII). -/
def pyLower (s : String) : String :=
  String.mk (s.toList.map Char.toLower)

/-- Substring occurrence on character lists (`pat in s` for non-empty `pat`). -/
def listContainsSub (pat : List Char) : List Char → Bool
  | [] => decide (pat = [])
  | c :: rest => pat.isPrefixOf (c :: rest) || listContainsSub pat rest

/-- Python `pat in s`. -/
def strContains (s pat : String) : Bool :=
  listContainsSub pat.toList s.toList

/-- Split at the first occurrence of `pat`: returns the text before it and
the text after it, or `none` when `pat` does not occur. -/
def splitFirst (pat : List Char) : List Char → Option (List Char × List Char)
  | [] => none
  | c :: rest =>
    if pat.isPrefixOf (c :: rest) then some ([], (c :: rest).drop pat.length)
    else
      match splitFirst pat rest with
      | some (pre, post) => some (c :: pre, post)
      | none => none

/-- Split a character list into its leading run of ASCII digits and the rest. -/
def takeDigits : List Char → List Char × List Char
  | [] => ([], [])
  | c :: cs =>
    if c.isDigit then
      let (d, r) := takeDigits cs
      (c :: d, r)
    else ([], c :: cs)

/-- Decimal value of a digit run. -/
def digitsToNat (ds : List Char) : Nat :=
  ds.foldl (fun a c => a * 10 + (c.toNat - 48)) 0

/-- Kernel-friendly rational addition (see `qadd_eq_add`). -/
def qadd (a b : ℚ) : ℚ :=
  mkRat (a.num * b.den + b.num * a.den) (a.den * b.den)

/-- Kernel-friendly division of a rational by a natural (see `qdivNat_eq_div`). -/
def qdivNat (a : ℚ) (n : Nat) : ℚ :=
  mkRat a.num (a.den * n)

/-- Exponent part of a Python float literal (after the `e`/`E`):
optional sign then at least one digit, consuming the whole rest. -/
def pyFloatExp (mant : ℚ) (cs : List Char) : Option ℚ :=
  let (eneg, cs1) :=
    match cs with
    | '-' :: rest => (true, rest)
    | '+' :: rest => (false, rest)
    | _ => (false, cs)
  let (ed, r) := takeDigits cs1
  if ed.isEmpty ∨ ¬ r.isEmpty then none
  else
    let e := digitsToNat ed
    some (if eneg then mkRat mant.num (mant.den * 10 ^ e)
          else mkRat (mant.num * 10 ^ e) mant.den)

/-- Python `float(s)`: `none` models a raised `ValueError`.
Accepts optional surrounding whitespace, an optional sign, digits with an
optional decimal point (at least one digit overall), and an optional
exponent.  The value `s·(i + f/10^k)` is built directly with `mkRat`.
(`inf`/`nan` and underscore separators are not modelled; no input used in
this development contains them.) -/
def pyFloat (s : String) : Option ℚ :=
  let cs := (pyStrip s).toList
  let (sign, cs1) :=
    match cs with
    | '-' :: rest => ((-1 : Int), rest)
    | '+' :: rest => ((1 : Int), rest)
    | _ => ((1 : Int), cs)
  let (ip, r1) := takeDigits cs1
  let (fp, r2) :=
    match r1 with
    | '.' :: rest => takeDigits rest
    | _ => (([] : List Char), r1)
  -- a bare "." (or empty string / bare sign) is a ValueError
  if ip.isEmpty ∧ fp.isEmpty then none
  else
    -- when r1 did not start with '.', r2 = r1 and fp = []
    let r2' := if r1.head? = some '.' then r2 else r1
    let mant : ℚ :=
      mkRat (sign * (digitsToNat ip * 10 ^ fp.length + digitsToNat fp)) (10 ^ fp.length)
    match r2' with
    | [] => some mant
    | 'e' :: rest => pyFloatExp mant rest
    | 'E' :: rest => pyFloatExp mant rest
    | _ => none

/-- Python `s.isdigit()` (ASCII): non-empty and all characters digits. -/
def pyIsDigit (s : String) : Bool :=
  ¬ s.isEmpty ∧ s.toList.all Char.isDigit

/-- The date-pattern tokens of `infer_column_type`. -/
def datePatterns : List String :=
  ["-", "/", "2020", "2021", "2022", "2023", "2024", "2025"]

/-- The boolean tokens of `infer_column_type`. -/
def boolTokens : List String :=
  ["true", "false", "yes", "no", "0", "1"]

/-- `infer_column_type` (main.py lines 55-89).  Infers a column type tag
from sample values.  The numeric branch is guarded by
`float(sample.replace(',',''))` succeeding on the FIRST non-None value
(the `try` block); only then is the `numeric_count` ratio test evaluated.
The float comparisons are expressed by exact cross-multiplication:
`numeric_count > len * 0.8  ⟺  5*numeric_count > 4*len` and
`unique/max(len,1) < 0.3  ⟺  10*unique < 3*max(len,1)`. -/
def infer_column_type (values : List PyVal) : String :=
  if values = [] then "unknown"
  else
    let str_values := (values.filter (· ≠ PyVal.vNone)).map pyStr
    let numericHit : Bool :=
      match str_values with
      | [] => false
      | sample :: _ =>
        (pyFloat (removeChar ',' sample)).isSome &&
        (let numeric_count :=
          (str_values.filter fun v =>
            pyIsDigit (removeChar '-' (removeChar '.' (removeChar ',' v)))).length
        decide (5 * numeric_count > 4 * str_values.length))
    if numericHit then "numeric"
    else
      let dateHit : Bool :=
        match str_values with
        | [] => false
        | sample :: _ =>
          (datePatterns.any fun p => strContains sample p) && decide (sample.length ≥ 8)
      if dateHit then "date"
      else
        let boolHit : Bool :=
          ¬ str_values.isEmpty &&
          str_values.all fun v => boolTokens.contains (pyLower v)
        if boolHit then "boolean"
        else
          if 10 * str_values.dedup.length < 3 * max str_values.length 1
          then "category" else "string"

/-! ## Schema Profiler (`build_schema_profile`, main.py lines 91-169) -/

/-- A sample row: Python dict in insertion order, column name → value. -/
abbrev Row : Type := List (String × PyVal)

/-- Python `row.get(key)` (first binding wins, as in a dict). -/
def rowGet? (row : Row) (key : String) : Option PyVal :=
  (List.find? (fun p => p.1 == key) row).map Prod.snd

/-- A raw column descriptor as consumed by `build_schema_profile`:
the keys `column_name`, `name`, `data_type`, `type` (each possibly absent)
and `str(col)` for the final fallback of the name chain. -/
structure PyColDescriptor where
  column_name : Option String := none
  name : Option String := none
  data_type : Option String := none
  type : Option String := none
  raw : String := ""
deriving DecidableEq, Repr

/-- Python `a or b` where a missing key and the empty string are falsy. -/
def pyOrStr (a : Option String) (b : String) : String :=
  match a with
  | some s => if s = "" then b else s
  | none => b

/-- The sample-collection loop: values of this column from the first 5
sample rows, keeping entries with `val is not None and str(val).strip()`. -/
def collectSamples (sample_rows : List Row) (col_name : String) : List PyVal :=
  (sample_rows.take 5).filterMap fun row =>
    match rowGet? row col_name with
    | some val =>
      if val ≠ PyVal.vNone ∧ pyStrip (pyStr val) ≠ "" then some val else none
    | none => none

/-- The declared-type / sample-based type resolution of `build_schema_profile`
(case-insensitive substring matches on the provider type string, then
`infer_column_type` when at least one sample is available, else `string`). -/
def inferredTypeOf (col_type_raw : String) (samples : List PyVal) : String :=
  let low := pyLower col_type_raw
  if strContains low "int" || strContains low "float" ||
     strContains low "double" || strContains low "decimal" then "numeric"
  else if strContains low "date" || strContains low "time" then "date"
  else if strContains low "bool" then "boolean"
  else if samples ≠ [] then infer_column_type samples
  else "string"

/-- The `{min, max, sample_avg}` record attached to numeric columns. -/
structure NumStats where
  min : ℚ
  max : ℚ
  sample_avg : ℚ
deriving DecidableEq, Repr

/-- The stats block of `build_schema_profile`: `float(str(v).replace(',',''))`
over the non-None collected samples.  The surrounding `try/except` means a
single failing conversion suppresses the whole stats record. -/
def statsOf (samples : List PyVal) : Option NumStats :=
  let strs := (samples.filter (· ≠ PyVal.vNone)).map fun v => removeChar ',' (pyStr v)
  if strs.all fun s => (pyFloat s).isSome then
    match strs.filterMap pyFloat with
    | [] => none
    | q :: rest =>
      some { min := rest.foldl min q, max := rest.foldl max q,
             sample_avg := qdivNat (rest.foldl qadd q) (q :: rest).length }
  else none

/-- One profiled column. -/
structure ColumnProfile where
  name : String
  type : String
  samples : List PyVal
  stats : Option NumStats := none
deriving DecidableEq, Repr

/-- `col.get("column_name") or col.get("name") or str(col)`. -/
def colNameOf (col : PyColDescriptor) : String :=
  pyOrStr col.column_name (pyOrStr col.name col.raw)

/-- The per-column body of the `for col in columns_data` loop:
collect samples from up to the first 5 rows, resolve the type, retain at
most the FIRST 3 samples, and attach stats computed over ALL collected
samples (not just the retained ones). -/
def buildColumnProfile (sample_rows : List Row) (col : PyColDescriptor) : ColumnProfile :=
  let col_name := colNameOf col
  let col_type_raw := pyOrStr col.data_type (pyOrStr col.type "")
  let samples := collectSamples sample_rows col_name
  let inferred_type := inferredTypeOf col_type_raw samples
  { name := col_name,
    type := inferred_type,
    samples := samples.take 3,
    stats := if inferred_type = "numeric" ∧ samples ≠ [] then statsOf samples else none }

/-- The output of `build_schema_profile`. -/
structure SchemaProfile where
  columns : List ColumnProfile
  row_count : Nat
  column_names : List String
  summary : String
deriving DecidableEq, Repr

/-- Iteration order of the pre-seeded `type_counts` dict. -/
def typeOrder : List String :=
  ["numeric", "date", "category", "string", "boolean", "unknown"]

/-- Python `', '.join`. -/
def joinComma : List String → String
  | [] => ""
  | [s] => s
  | s :: rest => s ++ ", " ++ joinComma rest

/-- The per-type fragments of the summary string. -/
def summaryParts (profile_columns : List ColumnProfile) : List String :=
  typeOrder.filterMap fun t =>
    let col_names := (profile_columns.filter (fun c => c.type == t)).map (·.name)
    if col_names.length > 0 then
      some (toString col_names.length ++ " " ++ t ++ " (" ++
            joinComma (col_names.take 3) ++
            (if col_names.length > 3 then "..." else "") ++ ")")
    else none

/-- `build_schema_profile` (main.py lines 91-169).  `row_count` models the
`row_count or 0` default. -/
def build_schema_profile (columns_data : List PyColDescriptor)
    (sample_rows : List Row) (row_count : Nat) : SchemaProfile :=
  let profile_columns := columns_data.map (buildColumnProfile sample_rows)
  { columns := profile_columns,
    row_count := row_count,
    column_names := profile_columns.map (·.name),
    summary := toString profile_columns.length ++ " columns: " ++
               joinComma (summaryParts profile_columns) }

/-- The five sample rows used in concrete checks below. -/
def fiveRows : List Row :=
  [[("V", PyVal.vStr "1")], [("V", PyVal.vStr "2")], [("V", PyVal.vStr "3")],
   [("V", PyVal.vStr "4")], [("V", PyVal.vStr "5")]]

/-! ## JSON extraction (`clean_llm_json`, main.py lines 302-357) -/

/-- `re.sub(r'</?s>', '', content)`: remove every `<s>` / `</s>` tag,
scanning left to right over non-overlapping matches. -/
def stripSTags : List Char → List Char
  | '<' :: '/' :: 's' :: '>' :: rest => stripSTags rest
  | '<' :: 's' :: '>' :: rest => stripSTags rest
  | c :: rest => c :: stripSTags rest
  | [] => []

/-- The `[OUT]...[/OUT]` unwrapping step: when both tags occur and a
`[/OUT]` follows some `[OUT]`, keep the stripped interior between the
first `[OUT]` and the first `[/OUT]` after it (the `re.search` with a lazy
group); otherwise leave the text unchanged. -/
def outUnwrap (content : String) : String :=
  if strContains content "[OUT]" && strContains content "[/OUT]" then
    match splitFirst "[OUT]".toList content.toList with
    | some (_, afterOpen) =>
      match splitFirst "[/OUT]".toList afterOpen with
      | some (interior, _) => pyStrip (String.mk interior)
      | none => content
    | none => content
  else content

/-- Python `s.startswith(pat)`. -/
def strStartsWith (s pat : String) : Bool :=
  pat.toList.isPrefixOf s.toList

/-- Python `s.endswith(pat)`. -/
def strEndsWith (s pat : String) : Bool :=
  pat.toList.isSuffixOf s.toList

/-- Drop the first `n` characters. -/
def strDrop (s : String) (n : Nat) : String :=
  String.mk (s.toList.drop n)

/-- Drop the last `n` characters. -/
def strDropRight (s : String) (n : Nat) : String :=
  String.mk (s.toList.take (s.toList.length - n))

/-- The markdown code-fence stripping step. -/
def stripFences (content : String) : String :=
  let content :=
    if strStartsWith content "```json" then strDrop content 7
    else if strStartsWith content "```" then strDrop content 3
    else content
  if strEndsWith content "```" then strDropRight content 3 else content

/-- First index of character `c`, Python `s.find(c)` (as an `Option`). -/
def findCharIdx (c : Char) : List Char → Option Nat
  | [] => none
  | a :: rest => if a = c then some 0 else (findCharIdx c rest).map (· + 1)

/-- Last index of character `c`, Python `s.rfind(c)` (as an `Option`). -/
def rfindCharIdx (c : Char) (cs : List Char) : Option Nat :=
  (findCharIdx c cs.reverse).map (fun i => cs.length - 1 - i)

/-- The whole preprocessing pipeline of `clean_llm_json` before the bracket
scan: strip, remove `<s>` tags, unwrap `[OUT]`, strip, strip fences, strip. -/
def cleanPreprocess (content : String) : String :=
  let content := pyStrip content
  let content := String.mk (stripSTags content.toList)
  let content := outUnwrap content
  let content := pyStrip content
  let content := stripFences content
  pyStrip content

/-- The bracket-scan step: find the first `{` or `[` (whichever is earlier),
then the last occurrence of the matching-kind closer; slice when
well-ordered, otherwise keep the text; return `"{}"` when no opening
bracket exists at all.  The final Python `return content.strip()` is the
trailing `pyStrip`. -/
def startBracketIdx (cs : List Char) : Option Nat :=
  match findCharIdx '{' cs, findCharIdx '[' cs with
  | none, none => none
  | some o, none => some o
  | none, some a => some a
  | some o, some a => some (min o a)

/-- The matching-kind closer for the bracket found at `start_idx`. -/
def closerFor (cs : List Char) (start_idx : Nat) : Char :=
  if cs.getD start_idx ' ' = '{' then '}' else ']'

def bracketScan (content : String) : String :=
  match startBracketIdx content.toList with
  | none => "\x7b\x7d"
  | some start_idx =>
    match rfindCharIdx (closerFor content.toList start_idx) content.toList with
    | some e =>
      if e > start_idx then
        pyStrip (String.mk ((content.toList.drop start_idx).take (e + 1 - start_idx)))
      else pyStrip content
    | none => pyStrip content

/-- `clean_llm_json` (main.py lines 302-357). -/
def clean_llm_json (content : String) : String :=
  if content = "" then "\x7b\x7d"
  else bracketScan (cleanPreprocess content)

/-! ## Chart Candidate Generator (`ChartSuggester`, main.py lines 362-587) -/

/-- A candidate's `encoding` dict; `chart.get("encoding", {})` and
`encoding.get("x", "")` make every role default to the empty string. -/
structure Encoding where
  x : String := ""
  y : String := ""
  color : String := ""
deriving DecidableEq, Repr

/-- One entry of a `chosen_charts` list. -/
structure ChartCandidate where
  id : Int
  name : String
  reason : String
  encoding : Encoding := {}
deriving DecidableEq, Repr

/-- The per-candidate column check of `ChartSuggester.suggest`:
keep the chart iff each of `x` and `y` is empty or a member of
`column_names`. -/
def candidateValid (valid_columns : List String) (chart : ChartCandidate) : Bool :=
  (chart.encoding.x == "" || valid_columns.contains chart.encoding.x) &&
  (chart.encoding.y == "" || valid_columns.contains chart.encoding.y)

/-- The validation step of `ChartSuggester.suggest` (main.py lines 474-487):
filter the parsed candidates by `candidateValid`; if NOTHING survives, fall
back to the raw (unvalidated) first 4 candidates. -/
def validateCharts (valid_columns : List String) (chosen_charts : List ChartCandidate) :
    List ChartCandidate :=
  let validated_charts := chosen_charts.filter (candidateValid valid_columns)
  if validated_charts ≠ [] then validated_charts else chosen_charts.take 4

/-- One per-prompt result record of `suggest` / fallback. -/
structure SuggestionSet where
  user_prompt : String
  chosen_charts : List ChartCandidate
deriving DecidableEq, Repr

/-- The 4 generic candidates returned when no schema profile is available. -/
def genericCharts : List ChartCandidate :=
  [{ id := 1, name := "bar_chart", reason := "Default comparison chart" },
   { id := 9, name := "line_chart", reason := "Default trend chart" },
   { id := 6, name := "pie_chart", reason := "Default distribution chart" },
   { id := 10, name := "big_number", reason := "Default KPI chart" }]

/-- The six fallback rules of `_generate_fallback_suggestions`
(main.py lines 526-584), emitted in source order and truncated to 4. -/
def fallbackSuggestionsFor (columns : List ColumnProfile) : List ChartCandidate :=
  let date_cols := (columns.filter (fun c => c.type == "date")).map (·.name)
  let numeric_cols := (columns.filter (fun c => c.type == "numeric")).map (·.name)
  let category_cols :=
    (columns.filter (fun c => c.type == "category" || c.type == "string")).map (·.name)
  let rule1 : List ChartCandidate :=
    match date_cols.head?, numeric_cols.head? with
    | some d, some n =>
      [{ id := 9, name := "line_chart",
         reason := "Time trend: " ++ d ++ " vs " ++ n,
         encoding := { x := d, y := n } }]
    | _, _ => []
  let rule2 : List ChartCandidate :=
    match category_cols.head?, numeric_cols.head? with
    | some c, some n =>
      [{ id := 1, name := "bar_chart",
         reason := "Comparison: " ++ c ++ " vs " ++ n,
         encoding := { x := c, y := n } }]
    | _, _ => []
  let rule3 : List ChartCandidate :=
    match numeric_cols.head? with
    | some n =>
      [{ id := 4, name := "histogram",
         reason := "Distribution of " ++ n,
         encoding := { x := n } }]
    | none => []
  let rule4 : List ChartCandidate :=
    match category_cols.head?, numeric_cols.head? with
    | some c, some n =>
      [{ id := 6, name := "pie_chart",
         reason := "Share by " ++ c,
         encoding := { x := c, y := n } }]
    | _, _ => []
  let rule5 : List ChartCandidate :=
    match numeric_cols with
    | n0 :: n1 :: _ =>
      [{ id := 5, name := "scatter_plot",
         reason := "Correlation: " ++ n0 ++ " vs " ++ n1,
         encoding := { x := n0, y := n1 } }]
    | _ => []
  let rule6 : List ChartCandidate :=
    match numeric_cols.head? with
    | some n =>
      [{ id := 10, name := "big_number",
         reason := "Total " ++ n,
         encoding := { y := n } }]
    | none => []
  (rule1 ++ rule2 ++ rule3 ++ rule4 ++ rule5 ++ rule6).take 4

/-- `ChartSuggester._generate_fallback_suggestions` (main.py lines 505-587):
without a profile (or with an empty column list) return the generic
candidates per prompt, otherwise the rule-based candidates per prompt. -/
def generate_fallback_suggestions (user_prompts : List String)
    (schema_profile : Option SchemaProfile) : List SuggestionSet :=
  match schema_profile with
  | none => user_prompts.map fun p => { user_prompt := p, chosen_charts := genericCharts }
  | some sp =>
    if sp.columns = [] then
      user_prompts.map fun p => { user_prompt := p, chosen_charts := genericCharts }
    else
      user_prompts.map fun p =>
        { user_prompt := p, chosen_charts := fallbackSuggestionsFor sp.columns }

/-! ## Result Reshaper (`transform_to_chartjs_format`, main.py lines 214-296) -/

/-- A job-status payload from the data-lakehouse
(`{status, resultData?, rowCount?, message?}`). -/
structure StatusPayload where
  status : String
  resultData : List Row := []
  rowCount : Nat := 0
  message : Option String := none
deriving DecidableEq, Repr

/-- The fixed 8-entry color palette. -/
def chartColors : List String :=
  ["#BCFF3C", "#3CBCFF", "#FF3CBC", "#FFBC3C",
   "#3CFFBC", "#BC3CFF", "#FF6B6B", "#6BFFB8"]

/-- One Chart.js dataset. -/
structure Dataset where
  label : String
  data : List ℚ
  backgroundColor : List String
deriving DecidableEq, Repr

/-- The Chart.js payload `{labels, datasets}`. -/
structure ChartData where
  labels : List String
  datasets : List Dataset
deriving DecidableEq, Repr

/-- The per-cell numeric conversion of the dataset loop: numeric values are
used verbatim; otherwise `float(val) if val else 0`, with conversion
failures defaulting to 0. -/
def coerceChartVal : PyVal → ℚ
  | .vInt n => mkRat n 1
  | .vNone => mkRat 0 1
  | .vStr s => if s = "" then mkRat 0 1 else (pyFloat s).getD (mkRat 0 1)

/-- The `for i, col in enumerate(columns[1:], start=0)` dataset loop:
one dataset per non-label column, colored by `colors[i % len(colors)]`
uniformly across all its points. -/
def mkDatasets (result_data : List Row) : Nat → List String → List Dataset
  | _, [] => []
  | i, col :: rest =>
    let data_values := result_data.map fun row =>
      coerceChartVal ((rowGet? row col).getD (PyVal.vInt 0))
    { label := col, data := data_values,
      backgroundColor :=
        List.replicate data_values.length (chartColors.getD (i % chartColors.length) "") }
      :: mkDatasets result_data (i + 1) rest

/-- `transform_to_chartjs_format` (main.py lines 214-296).  Rows are dicts
in insertion order; the first row's key order gives the column order, the
first column becomes the labels. -/
def transform_to_chartjs_format (execution_result : StatusPayload) : ChartData :=
  match execution_result.resultData with
  | [] => { labels := [], datasets := [] }
  | firstRow :: rest =>
    let result_data := firstRow :: rest
    let columns := firstRow.map Prod.fst
    if columns.length < 1 then { labels := [], datasets := [] }
    else
      let label_col := columns.headD ""
      let labels := result_data.map fun row =>
        pyStr ((rowGet? row label_col).getD (PyVal.vStr ""))
      { labels := labels, datasets := mkDatasets result_data 0 columns.tail }

/-- Scenario-B rows. -/
def scenarioBRows : List Row :=
  [[("Region", PyVal.vStr "Asia"), ("Sales", PyVal.vInt 100)],
   [("Region", PyVal.vStr "EU"), ("Sales", PyVal.vInt 50)]]

/-! ## Query Execution Client (`execute_query_on_datalake`, main.py lines 172-210) -/

/-- A normalized query specification. -/
structure SelectItem where
  column : String := ""
  aggregation : Option String := none
  asName : String := ""
deriving DecidableEq, Repr

structure FilterItem where
  column : String := ""
  operator : String := ""
  value : String := ""
deriving DecidableEq, Repr

structure OrderByItem where
  column : String := ""
  direction : String := ""
deriving DecidableEq, Repr

structure QuerySpec where
  source : String := ""
  select : List SelectItem := []
  filters : List FilterItem := []
  groupBy : List String := []
  orderBy : List OrderByItem := []
  limit : Option Nat := none
deriving DecidableEq, Repr

/-- The backend's answer to the submission POST. -/
inductive SubmitResponse where
  | transportError (msg : String)
  | accepted (jobId : Option String)

/-- The backend's answer to one status poll. -/
inductive PollResponse where
  | transportError (msg : String)
  | payload (sd : StatusPayload)

/-- The external data-lakehouse, as observed through its two endpoints:
what it answers to submitting a given query, and what the n-th status poll
for that query returns. -/
structure DatalakeEnv where
  submit : QuerySpec → SubmitResponse
  statuses : QuerySpec → Nat → PollResponse

/-- The polling loop (main.py lines 189-207): up to `fuel` attempts;
`completed` short-circuits with the full payload, `failed` raises the
backend's message, transport errors raise, and exhausted attempts raise
the timeout.  `HTTPException` raised by the source is modelled as
`Except.error` carrying the `detail` string. -/
def pollFrom (statuses : Nat → PollResponse) (attempt : Nat) : Nat → Except String StatusPayload
  | 0 => .error "Query execution timeout"
  | fuel + 1 =>
    match statuses attempt with
    | .transportError e => .error ("Data-lakehouse error: " ++ e)
    | .payload sd =>
      if sd.status = "completed" then .ok sd
      else if sd.status = "failed" then
        .error ("Query failed: " ++ sd.message.getD "Unknown error")
      else pollFrom statuses (attempt + 1) fuel

/-- `execute_query_on_datalake` (main.py lines 172-210): submit, check the
job identifier, then poll at most 60 times. -/
def execute_query_on_datalake (env : DatalakeEnv) (query_json : QuerySpec) :
    Except String StatusPayload :=
  match env.submit query_json with
  | .transportError e => .error ("Data-lakehouse error: " ++ e)
  | .accepted none => .error "No jobId returned from data-lakehouse"
  | .accepted (some _jobId) => pollFrom (env.statuses query_json) 0 60

/-! ## The two exposed operations that execute chart queries
(`api_build_queries`, main.py lines 810-859, and the execution loop of
`api_execute_prompt`, main.py lines 948-1000) -/

/-- One chart record of the query-builder result, as mutated by the
execution loops. -/
structure Chart where
  user_prompt : String := ""
  chart_id : Int := 0
  chart_type : String := ""
  query : Option QuerySpec := none
  encoding : Encoding := {}
  data : Option ChartData := none
  error : Option String := none
deriving DecidableEq, Repr

/-- The hardcoded source table of `api_build_queries` (main.py line 842). -/
def hardcodedSource : String := "elm4r7a.sales"

/-- The per-chart body of the `api_build_queries` execution loop
(main.py lines 838-854): overwrite the query's source with the hardcoded
table, execute, and on success set `data` and clear `error`; on failure set
`error` only — `data` is NOT touched.  A missing `query` key raises
`KeyError('query')`, absorbed by the generic handler. -/
def buildQueriesProcessChart (env : DatalakeEnv) (chart : Chart) : Chart :=
  match chart.query with
  | none => { chart with error := some "Execution error: 'query'" }
  | some query_spec =>
    let q := { query_spec with source := hardcodedSource }
    match execute_query_on_datalake env q with
    | .ok r =>
      { chart with query := some q, data := some (transform_to_chartjs_format r),
                   error := none }
    | .error msg => { chart with query := some q, error := some msg }

/-- The execution half of `api_build_queries`: every chart of the builder
result is processed and returned; `dataset_metadata` is only ever forwarded
to the generative builder, never read here. -/
def api_build_queries_exec (dataset_metadata : List (String × String))
    (env : DatalakeEnv) (charts : List Chart) : List Chart :=
  charts.map (buildQueriesProcessChart env)

/-- The per-chart body of the `api_execute_prompt` execution loop
(main.py lines 952-998): skip charts without a query; drop select entries
referencing unknown columns and skip the chart when nothing is left; set
the real source; execute; on failure attach the message and default `data`
to empty labels/datasets.  `none` models `continue` (the chart is not
appended to `valid_charts`). -/
def executePromptProcessChart (env : DatalakeEnv) (valid_column_names : List String)
    (source : String) (chart : Chart) : Option Chart :=
  match chart.query with
  | none => none
  | some query_spec =>
    let query_columns := query_spec.select.filterMap fun sel =>
      if sel.column ≠ "" then some sel.column else none
    let invalid_cols := query_columns.filter fun c => ¬ valid_column_names.contains c
    let query_spec :=
      if invalid_cols ≠ [] then
        { query_spec with
          select := query_spec.select.filter fun s => valid_column_names.contains s.column }
      else query_spec
    if invalid_cols ≠ [] ∧ query_spec.select = [] then none
    else
      let q := { query_spec with source := source }
      match execute_query_on_datalake env q with
      | .ok r =>
        some { chart with query := some q, data := some (transform_to_chartjs_format r),
                          error := none }
      | .error msg =>
        some { chart with query := some q, error := some msg,
                          data := some { labels := [], datasets := [] } }

/-- The execution half of `api_execute_prompt` (STEP 5): the `valid_charts`
accumulation over all charts of the builder result. -/
def api_execute_prompt_exec (env : DatalakeEnv) (valid_column_names : List String)
    (source : String) (charts : List Chart) : List Chart :=
  charts.filterMap (executePromptProcessChart env valid_column_names source)

/-- A candidate whose `x` encoding references an unknown column. -/
def c1BadCandidate : ChartCandidate :=
  { id := 2, name := "bar_chart", reason := "Profit by region",
    encoding := { x := "Profit", y := "Sales" } }

/-- A candidate referencing only known columns. -/
def c1GoodCandidate : ChartCandidate :=
  { id := 1, name := "bar_chart", reason := "Sales by region",
    encoding := { x := "Region", y := "Sales" } }

/-- Five candidates that all reference known columns. -/
def fiveValidCandidates : List ChartCandidate :=
  [{ id := 1, name := "bar_chart", reason := "r1", encoding := { x := "Region", y := "Sales" } },
   { id := 6, name := "pie_chart", reason := "r2", encoding := { x := "Region", y := "Sales" } },
   { id := 9, name := "line_chart", reason := "r3", encoding := { x := "Region", y := "Sales" } },
   { id := 4, name := "histogram", reason := "r4", encoding := { x := "Sales" } },
   { id := 10, name := "big_number", reason := "r5", encoding := { y := "Sales" } }]

/-- Six sample values: 5 of the 6 non-blank values parse as stripped
numeric literals (> 80%), but the first one does not. -/
def c3Values : List PyVal :=
  [.vStr "abc", .vStr "1", .vStr "2", .vStr "3", .vStr "4", .vStr "5"]

/-- A provider-typed numeric column descriptor. -/
def c4Descriptor : PyColDescriptor := { column_name := some "V", data_type := some "int" }

/-- The profile built for `c4Descriptor` over the five sample rows. -/
def c4Profile : ColumnProfile := buildColumnProfile fiveRows c4Descriptor

/-- A backend whose submitted job always fails with message "boom". -/
def failEnv : DatalakeEnv :=
  { submit := fun _ => .accepted (some "job-1"),
    statuses := fun _ _ => .payload { status := "failed", message := some "boom" } }

/-- The query of the chart used in concrete checks. -/
def c6QS : QuerySpec := { select := [{ column := "Sales", asName := "Sales" }] }

/-- A chart as produced by the query builder, before execution. -/
def c6Chart : Chart :=
  { user_prompt := "p", chart_id := 1, chart_type := "bar_chart", query := some c6QS }

/-- A poll response that keeps the loop running: a payload whose status is
neither "completed" nor "failed". -/
def pollPending (r : PollResponse) : Prop :=
  ∃ sd, r = .payload sd ∧ sd.status ≠ "completed" ∧ sd.status ≠ "failed"

/-- A backend whose job never leaves the "running" state. -/
def runningEnv : DatalakeEnv :=
  { submit := fun _ => .accepted (some "job-2"),
    statuses := fun _ _ => .payload { status := "running" } }

/-! # Theorems -/

theorem qadd_eq_add (a b : ℚ) : qadd a b = a + b := by
  rw [qadd, Rat.add_def']

theorem qdivNat_eq_div (a : ℚ) (n : Nat) : qdivNat a n = a / (n : ℚ) := by
  rw [qdivNat, Rat.mkRat_eq_div]
  push_cast
  rw [div_mul_eq_div_div, Rat.num_div_den]

example : infer_column_type [.vStr "1", .vStr "2", .vStr "3", .vStr "4", .vStr "5"] = "numeric" := by decide

example : infer_column_type [.vStr "abc", .vStr "1", .vStr "2", .vStr "3", .vStr "4", .vStr "5"] = "string" := by decide

example : infer_column_type [.vStr "2023-01-05"] = "date" := by decide

example : infer_column_type [.vStr "yes", .vStr "no"] = "boolean" := by decide

example : infer_column_type [.vStr "alpha", .vStr "beta"] = "string" := by decide

example : infer_column_type [.vStr "true", .vStr "false"] = "boolean" := by decide

example : infer_column_type [.vNone, .vNone] = "category" := by decide

example : infer_column_type [] = "unknown" := by decide

example : pyFloat "12.5" = some (mkRat 25 2) := by decide

example : pyFloat "-3" = some (mkRat (-3) 1) := by decide

example : pyFloat "abc" = none := by decide

example : pyFloat "1e2" = some (mkRat 100 1) := by decide

example :
    buildColumnProfile fiveRows { column_name := some "V", data_type := some "int" } =
      { name := "V", type := "numeric",
        samples := [PyVal.vStr "1", PyVal.vStr "2", PyVal.vStr "3"],
        stats := some { min := mkRat 1 1, max := mkRat 5 1, sample_avg := mkRat 3 1 } } := by
  decide

example : clean_llm_json "" = "\x7b\x7d" := by decide

example : clean_llm_json "hello" = "\x7b\x7d" := by decide

example : clean_llm_json "x \x7b\"a\": 1\x7d y" = "\x7b\"a\": 1\x7d" := by decide

example : clean_llm_json "\x7babc" = "\x7babc" := by decide

example :
    clean_llm_json "<s>```json\n\x7b\"chosen_charts\":[]\x7d\n```</s>" =
      "\x7b\"chosen_charts\":[]\x7d" := by decide

example :
    fallbackSuggestionsFor
      [{ name := "Date", type := "date", samples := [] },
       { name := "Revenue", type := "numeric", samples := [] }] =
      [{ id := 9, name := "line_chart", reason := "Time trend: Date vs Revenue",
         encoding := { x := "Date", y := "Revenue" } },
       { id := 4, name := "histogram", reason := "Distribution of Revenue",
         encoding := { x := "Revenue" } },
       { id := 10, name := "big_number", reason := "Total Revenue",
         encoding := { y := "Revenue" } }] := by decide

example :
    transform_to_chartjs_format { status := "completed", resultData := scenarioBRows } =
      { labels := ["Asia", "EU"],
        datasets := [{ label := "Sales", data := [mkRat 100 1, mkRat 50 1],
                       backgroundColor := ["#BCFF3C", "#BCFF3C"] }] } := by
  decide

/-! ### C10: totality of type inference on all-None input -/

lemma filter_ne_vNone_replicate (n : Nat) :
    (List.replicate n PyVal.vNone).filter (· ≠ PyVal.vNone) = [] := by
  induction n with
  | zero => rfl
  | succ m ih => simpa [List.replicate_succ] using ih

lemma infer_column_type_of_no_str_values (l : List PyVal) (hne : l ≠ [])
    (hall : l.filter (· ≠ PyVal.vNone) = []) : infer_column_type l = "category" := by
  unfold infer_column_type
  rw [if_neg hne]
  simp only [hall, List.map_nil]
  decide

/-- C10: Type Inference is total on every input list: for every non-empty
list of sample values all of which are None, it neither raises nor divides
by zero (the cardinality divisor is clamped to at least 1) and returns the
tag "category", not "unknown". -/
theorem infer_column_type_all_none (n : Nat) (h : 0 < n) :
    infer_column_type (List.replicate n PyVal.vNone) = "category" := by
  apply infer_column_type_of_no_str_values
  · intro hnil
    have hlen := congrArg List.length hnil
    simp only [List.length_replicate, List.length_nil] at hlen
    omega
  · exact filter_ne_vNone_replicate n

/-- C10 witness: the theorem applied at the concrete input `n = 3`. -/
theorem infer_column_type_all_none_witness :
    0 < 3 ∧ infer_column_type (List.replicate 3 PyVal.vNone) = "category" :=
  ⟨by decide, infer_column_type_all_none 3 (by decide)⟩

/-! ### C1: column validity of emitted candidate sets -/

/-- C1 counterexample: against profile columns `{Region, Sales}`, a parsed
set whose single candidate references the unknown column "Profit" is
emitted unchanged by the validation step (the zero-survivor branch keeps
the raw first 4 candidates), so the emitted set contains a non-empty `x`
encoding outside `column_names`. -/
theorem validateCharts_emits_unknown_column :
    validateCharts ["Region", "Sales"] [c1BadCandidate] = [c1BadCandidate] ∧
    c1BadCandidate.encoding.x ≠ "" ∧
    (["Region", "Sales"] : List String).contains c1BadCandidate.encoding.x = false := by
  decide

/-- C1 amended: provided at least one parsed candidate passes column
validation, every candidate emitted by the validation step has each
present (non-empty) `x`/`y` encoding inside the profile's column names;
when zero candidates pass, the raw first 4 candidates are kept instead. -/
theorem validateCharts_sound_of_survivor (cols : List String) (charts : List ChartCandidate)
    (h : charts.filter (candidateValid cols) ≠ []) :
    ∀ c ∈ validateCharts cols charts,
      (c.encoding.x ≠ "" → cols.contains c.encoding.x = true) ∧
      (c.encoding.y ≠ "" → cols.contains c.encoding.y = true) := by
  intro c hc
  simp only [validateCharts] at hc
  rw [if_pos h] at hc
  have hv := (List.mem_filter.mp hc).2
  unfold candidateValid at hv
  rw [Bool.and_eq_true] at hv
  obtain ⟨hx, hy⟩ := hv
  constructor
  · intro hxne
    cases (Bool.or_eq_true _ _).mp hx with
    | inl h1 => exact absurd (eq_of_beq h1) hxne
    | inr h1 => exact h1
  · intro hyne
    cases (Bool.or_eq_true _ _).mp hy with
    | inl h1 => exact absurd (eq_of_beq h1) hyne
    | inr h1 => exact h1

/-- C1 witness: the amended theorem applied at a concrete surviving set. -/
theorem validateCharts_sound_witness :
    ([c1GoodCandidate].filter (candidateValid ["Region", "Sales"]) ≠ []) ∧
    ((c1GoodCandidate.encoding.x ≠ "" →
        (["Region", "Sales"] : List String).contains c1GoodCandidate.encoding.x = true) ∧
     (c1GoodCandidate.encoding.y ≠ "" →
        (["Region", "Sales"] : List String).contains c1GoodCandidate.encoding.y = true)) :=
  ⟨by decide,
   validateCharts_sound_of_survivor ["Region", "Sales"] [c1GoodCandidate] (by decide)
     c1GoodCandidate (by decide)⟩

/-! ### C2: candidate count per prompt -/

/-- C2 counterexample: when the parsed generative response contains 5
candidates that all pass column validation, the primary path emits all 5:
the ≤4 truncation is applied only in the zero-survivor branch. -/
theorem validateCharts_exceeds_four :
    (∀ c ∈ fiveValidCandidates, candidateValid ["Region", "Sales"] c = true) ∧
    (validateCharts ["Region", "Sales"] fiveValidCandidates).length = 5 := by
  decide

/-- C2 amended: at most 4 candidates per prompt are produced on the
fallback path and on the primary path's zero-survivor branch; when at
least one parsed candidate passes validation, all validated candidates are
emitted, which can exceed 4. -/
theorem suggest_count_bounds (cols : List String) (charts : List ChartCandidate)
    (prompts : List String) (profile : Option SchemaProfile)
    (h : charts.filter (candidateValid cols) = []) :
    (validateCharts cols charts).length ≤ 4 ∧
    ∀ s ∈ generate_fallback_suggestions prompts profile, s.chosen_charts.length ≤ 4 := by
  constructor
  · simp only [validateCharts, h]
    rw [if_neg (by simp)]
    exact List.length_take_le _ _
  · intro s hs
    cases profile with
    | none =>
      simp only [generate_fallback_suggestions, List.mem_map] at hs
      obtain ⟨p, _, rfl⟩ := hs
      show genericCharts.length ≤ 4
      decide
    | some sp =>
      simp only [generate_fallback_suggestions] at hs
      by_cases hcols : sp.columns = []
      · rw [if_pos hcols] at hs
        simp only [List.mem_map] at hs
        obtain ⟨p, _, rfl⟩ := hs
        show genericCharts.length ≤ 4
        decide
      · rw [if_neg hcols] at hs
        simp only [List.mem_map] at hs
        obtain ⟨p, _, rfl⟩ := hs
        show (fallbackSuggestionsFor sp.columns).length ≤ 4
        simp only [fallbackSuggestionsFor]
        exact List.length_take_le _ _

/-- C2 witness: the amended theorem applied at a concrete zero-survivor
set and a concrete prompt list without a profile. -/
theorem suggest_count_bounds_witness :
    ([c1BadCandidate].filter (candidateValid ["Region", "Sales"]) = []) ∧
    (validateCharts ["Region", "Sales"] [c1BadCandidate]).length ≤ 4 ∧
    ∀ s ∈ generate_fallback_suggestions ["show trends"] none, s.chosen_charts.length ≤ 4 :=
  ⟨by decide,
   (suggest_count_bounds ["Region", "Sales"] [c1BadCandidate] ["show trends"] none
     (by decide)).1,
   (suggest_count_bounds ["Region", "Sales"] [c1BadCandidate] ["show trends"] none
     (by decide)).2⟩

/-! ### C3: the numeric rule of type inference -/

/-- C3 counterexample: on `c3Values`, more than 80% of the non-blank
values parse as stripped numeric literals (5 of 6), yet Type Inference
returns "string", not "numeric" — because the numeric branch is gated on
the FIRST value parsing as a float. -/
theorem infer_column_type_majority_numeric_not_tagged :
    ((c3Values.filter (· ≠ PyVal.vNone)).map pyStr).length = 6 ∧
    (((c3Values.filter (· ≠ PyVal.vNone)).map pyStr).filter
      (fun v => (pyFloat (removeChar ',' v)).isSome)).length = 5 ∧
    infer_column_type c3Values = "string" := by
  decide

/-- C3 amended: Type Inference returns "numeric" exactly when the FIRST
non-None value parses as a float after comma removal AND the count of
values passing the digit test (after removing `,`, `.`, `-`) exceeds 80%
of the non-None values. -/
theorem infer_column_type_numeric_iff (values : List PyVal) (sample : String)
    (rest : List String)
    (h : (values.filter (· ≠ PyVal.vNone)).map pyStr = sample :: rest) :
    (infer_column_type values = "numeric" ↔
      ((pyFloat (removeChar ',' sample)).isSome = true ∧
       5 * (((sample :: rest).filter fun v =>
              pyIsDigit (removeChar '-' (removeChar '.' (removeChar ',' v)))).length) >
         4 * (sample :: rest).length)) := by
  have hvne : values ≠ [] := by
    intro hnil
    rw [hnil] at h
    simp at h
  unfold infer_column_type
  rw [if_neg hvne]
  simp only [h]
  by_cases hn :
      (pyFloat (removeChar ',' sample)).isSome = true ∧
      5 * (((sample :: rest).filter fun v =>
             pyIsDigit (removeChar '-' (removeChar '.' (removeChar ',' v)))).length) >
        4 * (sample :: rest).length
  · obtain ⟨h1, h2⟩ := hn
    rw [h1]
    simp only [Bool.true_and, decide_eq_true h2, if_pos rfl]
    exact ⟨fun _ => ⟨trivial, h2⟩, fun _ => rfl⟩
  · have hfalse :
        ((pyFloat (removeChar ',' sample)).isSome &&
          decide (5 * (((sample :: rest).filter fun v =>
              pyIsDigit (removeChar '-' (removeChar '.' (removeChar ',' v)))).length) >
            4 * (sample :: rest).length)) = false := by
      rw [Bool.and_eq_false_iff]
      by_cases h1 : (pyFloat (removeChar ',' sample)).isSome = true
      · right
        rw [decide_eq_false_iff_not]
        intro h2
        exact hn ⟨h1, h2⟩
      · left
        exact Bool.eq_false_iff.mpr h1
    rw [hfalse]
    simp only [Bool.false_eq_true, if_false]
    constructor
    · intro hres
      exfalso
      split at hres <;> revert hres
      · decide
      · split <;> intro hres
        · exact absurd hres (by decide)
        · split at hres <;> exact absurd hres (by decide)
    · intro hcontra
      exact absurd hcontra hn

/-- C3 witness: the amended theorem applied at an all-numeric concrete
input, giving the "numeric" tag. -/
theorem infer_column_type_numeric_iff_witness :
    (([PyVal.vStr "10", PyVal.vStr "20"].filter (· ≠ PyVal.vNone)).map pyStr =
      "10" :: ["20"]) ∧
    infer_column_type [PyVal.vStr "10", PyVal.vStr "20"] = "numeric" :=
  ⟨by decide,
   (infer_column_type_numeric_iff [PyVal.vStr "10", PyVal.vStr "20"] "10" ["20"]
     (by decide)).mpr (by decide)⟩

/-! ### C4: stats versus retained samples -/

/-- C4 counterexample: with 5 numeric sample rows (values 1..5) the
retained samples are the first 3, but the attached stats are
`{min 1, max 5, avg 3}` — computed over all 5 collected samples, not over
the retained ones (which would give `{min 1, max 3, avg 2}`). -/
theorem build_schema_profile_stats_beyond_retained :
    c4Profile.type = "numeric" ∧
    c4Profile.samples = [PyVal.vStr "1", PyVal.vStr "2", PyVal.vStr "3"] ∧
    c4Profile.stats = some { min := mkRat 1 1, max := mkRat 5 1, sample_avg := mkRat 3 1 } ∧
    statsOf c4Profile.samples =
      some { min := mkRat 1 1, max := mkRat 3 1, sample_avg := mkRat 2 1 } ∧
    c4Profile.stats ≠ statsOf c4Profile.samples := by
  decide

/-- C4 amended: for every numeric-tagged column with at least one
collected sample, the attached stats are computed over ALL collected
samples (drawn from up to the first 5 sample rows), of which only the
first 3 are retained in the profile; the stats agree with the retained
samples exactly when at most 3 samples were collected. -/
theorem build_schema_profile_stats_over_collected (rows : List Row) (col : PyColDescriptor)
    (hnum : (buildColumnProfile rows col).type = "numeric")
    (hne : collectSamples rows (colNameOf col) ≠ []) :
    (build_schema_profile [col] rows 0).columns = [buildColumnProfile rows col] ∧
    (buildColumnProfile rows col).samples = (collectSamples rows (colNameOf col)).take 3 ∧
    (buildColumnProfile rows col).stats = statsOf (collectSamples rows (colNameOf col)) ∧
    collectSamples rows (colNameOf col) = collectSamples (rows.take 5) (colNameOf col) ∧
    ((collectSamples rows (colNameOf col)).length ≤ 3 →
      (buildColumnProfile rows col).stats = statsOf (buildColumnProfile rows col).samples) := by
  have hsamples :
      (buildColumnProfile rows col).samples = (collectSamples rows (colNameOf col)).take 3 :=
    rfl
  have hstats :
      (buildColumnProfile rows col).stats = statsOf (collectSamples rows (colNameOf col)) := by
    show (if inferredTypeOf (pyOrStr col.data_type (pyOrStr col.type ""))
              (collectSamples rows (colNameOf col)) = "numeric" ∧
            collectSamples rows (colNameOf col) ≠ []
          then statsOf (collectSamples rows (colNameOf col)) else none) =
        statsOf (collectSamples rows (colNameOf col))
    exact if_pos ⟨hnum, hne⟩
  refine ⟨rfl, hsamples, hstats, ?_, ?_⟩
  · simp [collectSamples, List.take_take]
  · intro hlen
    rw [hstats, hsamples, List.take_of_length_le hlen]

/-- C4 witness: the amended theorem applied with only 2 sample rows, where
the stats do agree with the retained samples. -/
theorem build_schema_profile_stats_over_collected_witness :
    (buildColumnProfile (fiveRows.take 2) c4Descriptor).type = "numeric" ∧
    collectSamples (fiveRows.take 2) (colNameOf c4Descriptor) ≠ [] ∧
    (collectSamples (fiveRows.take 2) (colNameOf c4Descriptor)).length ≤ 3 ∧
    (buildColumnProfile (fiveRows.take 2) c4Descriptor).stats =
      statsOf (buildColumnProfile (fiveRows.take 2) c4Descriptor).samples :=
  ⟨by decide, by decide, by decide,
   (build_schema_profile_stats_over_collected (fiveRows.take 2) c4Descriptor
     (by decide) (by decide)).2.2.2.2 (by decide)⟩

/-! ### C5: when JSON extraction returns "\x7b\x7d" -/

/-- C5 counterexample: the non-empty bracket-less input "hello" — for
which no well-ordered bracket span exists — yields `"\x7b\x7d"`, not the
stripped text "hello". -/
theorem clean_llm_json_braces_on_bracketless :
    ("hello" : String) ≠ "" ∧
    clean_llm_json "hello" = "\x7b\x7d" ∧
    clean_llm_json "hello" ≠ pyStrip (cleanPreprocess "hello") := by
  decide

/-- C5 amended: JSON Extraction returns `"\x7b\x7d"` when its input is
empty OR when the preprocessed text contains no `\x7b` or `[` at all; when
an opening bracket is found but the last matching-kind closer is absent or
not strictly after it, the stripped preprocessed text is returned. -/
lemma bracketScan_none (t : String) (h : startBracketIdx t.toList = none) :
    bracketScan t = "\x7b\x7d" := by
  unfold bracketScan
  rw [h]

lemma bracketScan_badEnd (t : String) (start : Nat)
    (hstart : startBracketIdx t.toList = some start)
    (hbad : ∀ e, rfindCharIdx (closerFor t.toList start) t.toList = some e → e ≤ start) :
    bracketScan t = pyStrip t := by
  unfold bracketScan
  rw [hstart]
  show (match rfindCharIdx (closerFor t.toList start) t.toList with
        | some e =>
          if e > start then
            pyStrip (String.mk ((t.toList.drop start).take (e + 1 - start)))
          else pyStrip t
        | none => pyStrip t) = pyStrip t
  cases hrf : rfindCharIdx (closerFor t.toList start) t.toList with
  | none => rfl
  | some e =>
    have he := hbad e hrf
    show (if e > start then
            pyStrip (String.mk ((t.toList.drop start).take (e + 1 - start)))
          else pyStrip t) = pyStrip t
    rw [if_neg (by omega)]

theorem clean_llm_json_bracket_cases (s : String) (h : s ≠ "") :
    (startBracketIdx (cleanPreprocess s).toList = none →
      clean_llm_json s = "\x7b\x7d") ∧
    (∀ start, startBracketIdx (cleanPreprocess s).toList = some start →
      (∀ e, rfindCharIdx (closerFor (cleanPreprocess s).toList start)
              (cleanPreprocess s).toList = some e → e ≤ start) →
      clean_llm_json s = pyStrip (cleanPreprocess s)) := by
  have hcl : clean_llm_json s = bracketScan (cleanPreprocess s) := by
    unfold clean_llm_json
    rw [if_neg h]
  exact ⟨fun hnone => hcl.trans (bracketScan_none _ hnone),
         fun start hstart hbad => hcl.trans (bracketScan_badEnd _ start hstart hbad)⟩

/-- C5 witness: the amended theorem applied at the bracket-less "hello"
and at "\x7babc" (opening brace, no closer). -/
theorem clean_llm_json_bracket_cases_witness :
    clean_llm_json "hello" = "\x7b\x7d" ∧
    clean_llm_json "\x7babc" = pyStrip (cleanPreprocess "\x7babc") :=
  ⟨(clean_llm_json_bracket_cases "hello" (by decide)).1 (by decide),
   (clean_llm_json_bracket_cases "\x7babc" (by decide)).2 0 (by decide)
     (by
       intro e he
       have hn : rfindCharIdx (closerFor (cleanPreprocess "\x7babc").toList 0)
           (cleanPreprocess "\x7babc").toList = none := by decide
       rw [hn] at he
       exact Option.noConfusion he)⟩

/-! ### C6: per-chart error isolation in the two executing operations -/

/-- C6 counterexample: in the build-queries operation, a chart whose
execution fails gets the failure message on `error` but its `data` field
is NOT defaulted to empty labels/datasets (it stays absent). -/
theorem api_build_queries_data_not_defaulted :
    (buildQueriesProcessChart failEnv c6Chart).error = some "Query failed: boom" ∧
    (buildQueriesProcessChart failEnv c6Chart).data = none ∧
    (buildQueriesProcessChart failEnv c6Chart).data ≠
      some { labels := [], datasets := [] } := by
  decide

/-- C6 amended: a chart whose execution fails gets the failure message on
its `error` field in both executing operations, and the batch keeps every
processed chart; but only the execute-prompt operation defaults `data` to
empty labels/datasets — build-queries leaves `data` untouched. -/
theorem chart_error_isolation (env : DatalakeEnv) (md : List (String × String))
    (charts : List Chart) (chart : Chart) (qs : QuerySpec) (msg : String)
    (r : StatusPayload) (cols : List String) (src : String)
    (hq : chart.query = some qs) :
    ((api_build_queries_exec md env charts).length = charts.length) ∧
    (execute_query_on_datalake env { qs with source := hardcodedSource } = .error msg →
      buildQueriesProcessChart env chart =
        { chart with query := some { qs with source := hardcodedSource },
                     error := some msg }) ∧
    ((qs.select.filterMap fun sel =>
        if sel.column ≠ "" then some sel.column else none).filter
          (fun c => ¬ cols.contains c) = [] →
      (execute_query_on_datalake env { qs with source := src } = .error msg →
        executePromptProcessChart env cols src chart =
          some { chart with query := some { qs with source := src },
                            error := some msg,
                            data := some { labels := [], datasets := [] } }) ∧
      (execute_query_on_datalake env { qs with source := src } = .ok r →
        executePromptProcessChart env cols src chart =
          some { chart with query := some { qs with source := src },
                            data := some (transform_to_chartjs_format r),
                            error := none })) ∧
    (∀ c', executePromptProcessChart env cols src chart = some c' → chart ∈ charts →
      c' ∈ api_execute_prompt_exec env cols src charts) := by
  refine ⟨by simp [api_build_queries_exec], ?_, ?_, ?_⟩
  · intro hexec
    simp only [buildQueriesProcessChart, hq, hexec]
  · intro hvalid
    constructor
    · intro hexec
      simp only [executePromptProcessChart, hq, hvalid, ne_eq, not_true_eq_false,
        if_false, false_and, hexec]
    · intro hexec
      simp only [executePromptProcessChart, hq, hvalid, ne_eq, not_true_eq_false,
        if_false, false_and, hexec]
  · intro c' hc' hmem
    exact List.mem_filterMap.mpr ⟨chart, hmem, hc'⟩

/-- C6 witness: the amended theorem applied at a concretely failing
backend, for both executing operations. -/
theorem chart_error_isolation_witness :
    (api_build_queries_exec [] failEnv [c6Chart]).length = [c6Chart].length ∧
    executePromptProcessChart failEnv ["Sales"] "proj.sales" c6Chart =
      some { c6Chart with query := some { c6QS with source := "proj.sales" },
                          error := some "Query failed: boom",
                          data := some { labels := [], datasets := [] } } :=
  ⟨(chart_error_isolation failEnv [] [c6Chart] c6Chart c6QS "Query failed: boom"
      { status := "completed" } ["Sales"] "proj.sales" rfl).1,
   ((chart_error_isolation failEnv [] [c6Chart] c6Chart c6QS "Query failed: boom"
      { status := "completed" } ["Sales"] "proj.sales" rfl).2.2.1 (by decide)).1 rfl⟩

/-! ### C7: the hardcoded source table of the build-queries operation -/

/-- C7: in the build-queries operation the execution loop ignores the
request's dataset metadata entirely (the result does not depend on it),
and every executed chart's query is submitted — and returned — with its
`source` overwritten by the single hardcoded table identifier
"elm4r7a.sales". -/
lemma buildQueriesProcessChart_query (env : DatalakeEnv) (chart : Chart) :
    (buildQueriesProcessChart env chart).query =
      chart.query.map (fun qs0 => { qs0 with source := hardcodedSource }) := by
  cases hq : chart.query with
  | none => simp [buildQueriesProcessChart, hq]
  | some qs0 =>
    cases hexec : execute_query_on_datalake env { qs0 with source := hardcodedSource } <;>
      simp [buildQueriesProcessChart, hq, hexec]

theorem api_build_queries_hardcoded_source (md md' : List (String × String))
    (env : DatalakeEnv) (charts : List Chart) :
    (api_build_queries_exec md env charts = api_build_queries_exec md' env charts) ∧
    (∀ c ∈ api_build_queries_exec md env charts, ∀ qs, c.query = some qs →
      qs.source = hardcodedSource) := by
  constructor
  · rfl
  · intro c hc qs hcq
    simp only [api_build_queries_exec, List.mem_map] at hc
    obtain ⟨chart, _, rfl⟩ := hc
    rw [buildQueriesProcessChart_query] at hcq
    cases hq : chart.query with
    | none =>
      rw [hq] at hcq
      exact Option.noConfusion hcq
    | some qs0 =>
      rw [hq] at hcq
      simp only [Option.map_some', Option.some.injEq] at hcq
      rw [← hcq]

/-- C7 witness: the theorem applied at a concrete chart and backend. -/
theorem api_build_queries_hardcoded_source_witness :
    (buildQueriesProcessChart failEnv c6Chart ∈ api_build_queries_exec [] failEnv [c6Chart]) ∧
    ((buildQueriesProcessChart failEnv c6Chart).query =
      some { c6QS with source := hardcodedSource }) ∧
    ({ c6QS with source := hardcodedSource } : QuerySpec).source = hardcodedSource :=
  ⟨by decide, by decide,
   (api_build_queries_hardcoded_source [] [("tableName", "sales")] failEnv [c6Chart]).2
     (buildQueriesProcessChart failEnv c6Chart) (by decide)
     { c6QS with source := hardcodedSource } (by decide)⟩

/-! ### C8: bounded polling of the Query Execution Client -/

lemma pollFrom_succ_of_payload (statuses : Nat → PollResponse) (a f : Nat)
    (sd : StatusPayload) (heq : statuses a = .payload sd) :
    pollFrom statuses a (f + 1) =
      (if sd.status = "completed" then Except.ok sd
       else if sd.status = "failed" then
         Except.error ("Query failed: " ++ sd.message.getD "Unknown error")
       else pollFrom statuses (a + 1) f) := by
  conv_lhs => rw [pollFrom]
  rw [heq]

lemma pollFrom_timeout (statuses : Nat → PollResponse) (a fuel : Nat)
    (h : ∀ i, i < fuel → pollPending (statuses (a + i))) :
    pollFrom statuses a fuel = .error "Query execution timeout" := by
  induction fuel generalizing a with
  | zero => rfl
  | succ f ih =>
    obtain ⟨sd, heq, hc, hf⟩ := h 0 (Nat.succ_pos f)
    rw [Nat.add_zero] at heq
    rw [pollFrom_succ_of_payload statuses a f sd heq, if_neg hc, if_neg hf]
    exact ih (a + 1) fun i hi => by
      have hx := h (i + 1) (by omega)
      rwa [show a + (i + 1) = a + 1 + i by omega] at hx

lemma pollFrom_terminal (statuses : Nat → PollResponse) (a k fuel : Nat)
    (sd : StatusPayload)
    (hpend : ∀ i, i < k → pollPending (statuses (a + i))) (hk : k < fuel)
    (hsd : statuses (a + k) = .payload sd) :
    (sd.status = "completed" → pollFrom statuses a fuel = .ok sd) ∧
    (sd.status = "failed" →
      pollFrom statuses a fuel =
        .error ("Query failed: " ++ sd.message.getD "Unknown error")) := by
  induction k generalizing a fuel with
  | zero =>
    cases fuel with
    | zero => omega
    | succ f =>
      rw [Nat.add_zero] at hsd
      rw [pollFrom_succ_of_payload statuses a f sd hsd]
      constructor
      · intro hst
        rw [if_pos hst]
      · intro hst
        rw [if_neg (by rw [hst]; decide), if_pos hst]
  | succ m ih =>
    cases fuel with
    | zero => omega
    | succ f =>
      obtain ⟨sd0, heq, hc, hf⟩ := hpend 0 (Nat.succ_pos m)
      rw [Nat.add_zero] at heq
      have hrec := ih (a + 1) f
        (fun i hi => by
          have hx := hpend (i + 1) (by omega)
          rwa [show a + (i + 1) = a + 1 + i by omega] at hx)
        (by omega)
        (by rwa [show a + 1 + m = a + (m + 1) by omega])
      rw [pollFrom_succ_of_payload statuses a f sd0 heq, if_neg hc, if_neg hf]
      exact hrec

/-- C8: for every submission yielding a job identifier, the client polls at
most 60 times: if every one of the 60 polls is pending (neither completed
nor failed) the result is the terminal timeout failure; a completed status
at poll `k < 60` (after only pending polls) short-circuits with the full
payload; a failed status there yields the terminal failure carrying the
backend's message.  The function is total, so no non-termination or
unhandled exception is possible. -/
theorem execute_query_polling_spec (env : DatalakeEnv) (q : QuerySpec) (jobId : String)
    (k : Nat) (sd : StatusPayload)
    (hsubmit : env.submit q = .accepted (some jobId)) :
    ((∀ i, i < 60 → pollPending (env.statuses q i)) →
      execute_query_on_datalake env q = .error "Query execution timeout") ∧
    (k < 60 → (∀ i, i < k → pollPending (env.statuses q i)) →
      env.statuses q k = .payload sd →
      (sd.status = "completed" → execute_query_on_datalake env q = .ok sd) ∧
      (sd.status = "failed" →
        execute_query_on_datalake env q =
          .error ("Query failed: " ++ sd.message.getD "Unknown error"))) := by
  have hexec : execute_query_on_datalake env q = pollFrom (env.statuses q) 0 60 := by
    unfold execute_query_on_datalake
    rw [hsubmit]
  constructor
  · intro hall
    rw [hexec]
    exact pollFrom_timeout _ 0 60 fun i hi => by simpa using hall i hi
  · intro hk hpend hsd
    have ht := pollFrom_terminal (env.statuses q) 0 k 60 sd
      (fun i hi => by simpa using hpend i hi) hk (by simpa using hsd)
    exact ⟨fun hst => by rw [hexec]; exact ht.1 hst,
           fun hst => by rw [hexec]; exact ht.2 hst⟩

/-- C8 witness: the theorem applied to a job polled 60 times, all
returning "running" — execution terminates with the timeout failure. -/
theorem execute_query_polling_spec_witness :
    execute_query_on_datalake runningEnv { source := "t" } =
      .error "Query execution timeout" :=
  (execute_query_polling_spec runningEnv { source := "t" } "job-2" 0
      { status := "running" } rfl).1
    fun _ _ => ⟨{ status := "running" }, rfl, by decide, by decide⟩

/-! ### C9: shape of the reshaped Chart.js payload -/

lemma mkDatasets_getElem (rd : List Row) (cols : List String) (i j : Nat) (ds : Dataset)
    (h : (mkDatasets rd i cols)[j]? = some ds) :
    ∃ col, cols[j]? = some col ∧ ds.label = col ∧
      ds.data = rd.map (fun row => coerceChartVal ((rowGet? row col).getD (PyVal.vInt 0))) ∧
      ds.backgroundColor =
        List.replicate ds.data.length (chartColors.getD ((i + j) % chartColors.length) "") := by
  induction cols generalizing i j with
  | nil => simp [mkDatasets] at h
  | cons c rest ih =>
    cases j with
    | zero =>
      rw [mkDatasets] at h
      simp only [List.getElem?_cons_zero, Option.some.injEq] at h
      exact ⟨c, by simp, by rw [← h], by rw [← h], by rw [← h]; simp⟩
    | succ j' =>
      rw [mkDatasets] at h
      simp only [List.getElem?_cons_succ] at h
      obtain ⟨col, h1, h2, h3, h4⟩ := ih (i + 1) j' h
      refine ⟨col, by simpa using h1, h2, h3, ?_⟩
      rwa [show i + 1 + j' = i + (j' + 1) by omega] at h4

/-- C9: for every non-empty `resultData` whose first row has at least one
column, the reshaper takes the first row's first key as labels (stringified
per row, missing values as ""), turns each subsequent column of the first
row into one dataset whose values come from `coerceChartVal` (verbatim
when numeric, parsed as float otherwise, 0 on failure), and colors each
dataset uniformly with the palette entry at (dataset position mod 8); on
the Scenario-B input this gives labels ["Asia","EU"] and the single
dataset "Sales" with data [100, 50]. -/
theorem transform_reshaper_spec (er : StatusPayload) (firstRow : Row) (rest : List Row)
    (h : er.resultData = firstRow :: rest) (hne : firstRow ≠ []) :
    ((transform_to_chartjs_format er).labels =
      (firstRow :: rest).map (fun row =>
        pyStr ((rowGet? row ((firstRow.map Prod.fst).headD "")).getD (PyVal.vStr "")))) ∧
    (∀ j ds, (transform_to_chartjs_format er).datasets[j]? = some ds →
      ∃ col, (firstRow.map Prod.fst).tail[j]? = some col ∧ ds.label = col ∧
        ds.data = (firstRow :: rest).map
          (fun row => coerceChartVal ((rowGet? row col).getD (PyVal.vInt 0))) ∧
        ds.backgroundColor =
          List.replicate ds.data.length
            (chartColors.getD (j % chartColors.length) "")) ∧
    (transform_to_chartjs_format { status := "completed", resultData := scenarioBRows } =
      { labels := ["Asia", "EU"],
        datasets := [{ label := "Sales", data := [mkRat 100 1, mkRat 50 1],
                       backgroundColor := ["#BCFF3C", "#BCFF3C"] }] }) := by
  have hlen : ¬ (firstRow.map Prod.fst).length < 1 := by
    cases firstRow with
    | nil => exact absurd rfl hne
    | cons p l => simp
  have ht : transform_to_chartjs_format er =
      { labels := (firstRow :: rest).map (fun row =>
          pyStr ((rowGet? row ((firstRow.map Prod.fst).headD "")).getD (PyVal.vStr ""))),
        datasets := mkDatasets (firstRow :: rest) 0 (firstRow.map Prod.fst).tail } := by
    unfold transform_to_chartjs_format
    rw [h]
    show (if (firstRow.map Prod.fst).length < 1 then
            ({ labels := [], datasets := [] } : ChartData)
          else
            { labels := (firstRow :: rest).map (fun row =>
                pyStr ((rowGet? row ((firstRow.map Prod.fst).headD "")).getD (PyVal.vStr ""))),
              datasets := mkDatasets (firstRow :: rest) 0 (firstRow.map Prod.fst).tail }) = _
    rw [if_neg hlen]
  refine ⟨by rw [ht], ?_, by decide⟩
  intro j ds hds
  rw [ht] at hds
  obtain ⟨col, h1, h2, h3, h4⟩ :=
    mkDatasets_getElem (firstRow :: rest) (firstRow.map Prod.fst).tail 0 j ds hds
  exact ⟨col, h1, h2, h3, by simpa using h4⟩

/-- C9 witness: the theorem applied at the Scenario-B rows. -/
theorem transform_reshaper_spec_witness :
    (transform_to_chartjs_format
        { status := "completed", resultData := scenarioBRows }).labels = ["Asia", "EU"] ∧
    (transform_to_chartjs_format
        { status := "completed", resultData := scenarioBRows }).datasets =
      [{ label := "Sales", data := [mkRat 100 1, mkRat 50 1],
         backgroundColor := ["#BCFF3C", "#BCFF3C"] }] :=
  ⟨((transform_reshaper_spec { status := "completed", resultData := scenarioBRows }
      [("Region", PyVal.vStr "Asia"), ("Sales", PyVal.vInt 100)]
      [[("Region", PyVal.vStr "EU"), ("Sales", PyVal.vInt 50)]]
      rfl (by decide)).1).trans (by decide),
   congrArg ChartData.datasets
     ((transform_reshaper_spec { status := "completed", resultData := scenarioBRows }
        [("Region", PyVal.vStr "Asia"), ("Sales", PyVal.vInt 100)]
        [[("Region", PyVal.vStr "EU"), ("Sales", PyVal.vInt 50)]]
        rfl (by decide)).2.2)⟩
